import Mathlib

/-!
A shallow embedding of the MediaSharingApp relational schema, its seed data
and its query catalogue, taken from the course material (the SQL script in
10-validation.md, the query catalogue in 06-database-api.md, and the addUser
model function in 10-validation.md).

Modelling notes.
* Each CREATE TABLE becomes a row structure; the whole database is a `DB`
  record holding one list of rows per table plus the AUTO_INCREMENT counter
  of each table that has one (MySQL counters start at 1 and never reuse ids).
* `created_at TIMESTAMP DEFAULT CURRENT_TIMESTAMP` columns are wall-clock
  defaults with no semantic content for any constraint or catalogued query,
  so they are omitted from the row structures.
* INT columns carry `Int` where sign matters (filesize, rating_value) and
  `Nat` for surrogate ids. VARCHAR/TEXT columns carry `String`; nullable
  columns carry `Option`.
* Every declared constraint (PRIMARY KEY, UNIQUE, NOT NULL via the types,
  FOREIGN KEY, CHECK) is enforced by the insert operations exactly as MySQL
  enforces it; a violated constraint yields `ConstraintViolation` and the
  database is left unchanged.  Foreign keys are declared without an ON
  DELETE action, so deletes follow the default RESTRICT behaviour.
* A NULL value in the nullable FK column `Users.user_level_id` bypasses the
  foreign-key check, as in SQL.
-/

/-- Error taxonomy of the schema store: constraint violations on writes,
ambiguous projections in GROUP BY queries (a query-authoring error), and a
scalar subquery returning more than one row. -/
inductive DBError where
  | ConstraintViolation
  | AmbiguousProjection
  | SubqueryError
deriving Repr, DecidableEq

/-- CREATE TABLE UserLevels (level_id INT AUTO_INCREMENT PRIMARY KEY,
level_name VARCHAR(50) NOT NULL). -/
structure UserLevelRow where
  level_id : Nat
  level_name : String
deriving Repr, DecidableEq

/-- CREATE TABLE Users (user_id INT AUTO_INCREMENT PRIMARY KEY, username
VARCHAR(50) NOT NULL UNIQUE, password VARCHAR(255) NOT NULL, email
VARCHAR(100) NOT NULL UNIQUE, user_level_id INT, created_at TIMESTAMP,
FOREIGN KEY (user_level_id) REFERENCES UserLevels(level_id)).  The
user_level_id column is nullable, hence `Option Nat`. -/
structure UserRow where
  user_id : Nat
  username : String
  password : String
  email : String
  user_level_id : Option Nat
deriving Repr, DecidableEq

/-- CREATE TABLE MediaItems (media_id INT NOT NULL AUTO_INCREMENT PRIMARY
KEY, user_id INT NOT NULL, filename VARCHAR(255) NOT NULL, filesize INT NOT
NULL, media_type VARCHAR(255) NOT NULL, title VARCHAR(255) NOT NULL,
description VARCHAR(255), created_at TIMESTAMP, FOREIGN KEY (user_id)
REFERENCES Users(user_id)).  There is no CHECK constraint on filesize. -/
structure MediaItemRow where
  media_id : Nat
  user_id : Nat
  filename : String
  filesize : Int
  media_type : String
  title : String
  description : Option String
deriving Repr, DecidableEq

/-- CREATE TABLE Comments (comment_id INT AUTO_INCREMENT PRIMARY KEY,
media_id INT NOT NULL, user_id INT NOT NULL, comment_text TEXT NOT NULL,
created_at TIMESTAMP, FOREIGN KEY (media_id) REFERENCES
MediaItems(media_id), FOREIGN KEY (user_id) REFERENCES Users(user_id)). -/
structure CommentRow where
  comment_id : Nat
  media_id : Nat
  user_id : Nat
  comment_text : String
deriving Repr, DecidableEq

/-- CREATE TABLE Likes (like_id INT AUTO_INCREMENT PRIMARY KEY, media_id INT
NOT NULL, user_id INT NOT NULL, created_at TIMESTAMP, FOREIGN KEY (media_id)
REFERENCES MediaItems(media_id), FOREIGN KEY (user_id) REFERENCES
Users(user_id)). -/
structure LikeRow where
  like_id : Nat
  media_id : Nat
  user_id : Nat
deriving Repr, DecidableEq

/-- CREATE TABLE Ratings (rating_id INT AUTO_INCREMENT PRIMARY KEY, media_id
INT NOT NULL, user_id INT NOT NULL, rating_value INT NOT NULL CHECK
(rating_value BETWEEN 1 AND 5), created_at TIMESTAMP, FOREIGN KEY (media_id)
REFERENCES MediaItems(media_id), FOREIGN KEY (user_id) REFERENCES
Users(user_id)). -/
structure RatingRow where
  rating_id : Nat
  media_id : Nat
  user_id : Nat
  rating_value : Int
deriving Repr, DecidableEq

/-- CREATE TABLE Tags (tag_id INT AUTO_INCREMENT PRIMARY KEY, tag_name
VARCHAR(50) NOT NULL). -/
structure TagRow where
  tag_id : Nat
  tag_name : String
deriving Repr, DecidableEq

/-- CREATE TABLE MediaItemTags (media_id INT NOT NULL, tag_id INT NOT NULL,
PRIMARY KEY (media_id, tag_id), FOREIGN KEY (media_id) REFERENCES
MediaItems(media_id), FOREIGN KEY (tag_id) REFERENCES Tags(tag_id)). -/
structure MediaItemTagRow where
  media_id : Nat
  tag_id : Nat
deriving Repr, DecidableEq

/-- The schema store: one list of rows per table (in insertion order) plus
the AUTO_INCREMENT counter of each table that has one. -/
structure DB where
  userLevels : List UserLevelRow
  users : List UserRow
  mediaItems : List MediaItemRow
  comments : List CommentRow
  likes : List LikeRow
  ratings : List RatingRow
  tags : List TagRow
  mediaItemTags : List MediaItemTagRow
  nextLevelId : Nat
  nextUserId : Nat
  nextMediaId : Nat
  nextCommentId : Nat
  nextLikeId : Nat
  nextRatingId : Nat
  nextTagId : Nat
deriving Repr, DecidableEq

/-- The freshly created database: all tables empty, counters at 1. -/
def emptyDB : DB :=
  { userLevels := [], users := [], mediaItems := [], comments := []
    likes := [], ratings := [], tags := [], mediaItemTags := []
    nextLevelId := 1, nextUserId := 1, nextMediaId := 1, nextCommentId := 1
    nextLikeId := 1, nextRatingId := 1, nextTagId := 1 }

/-- Does some row of `l` have key value `x`?  (the shape of every foreign-key
and primary-key existence check). -/
def idIn {α : Type} (key : α → Nat) (l : List α) (x : Nat) : Bool :=
  l.any (fun a => key a == x)

/-- FOREIGN KEY ... REFERENCES UserLevels(level_id). -/
def levelExists (db : DB) (lid : Nat) : Bool := idIn (fun r => r.level_id) db.userLevels lid

/-- FOREIGN KEY ... REFERENCES Users(user_id). -/
def userExists (db : DB) (uid : Nat) : Bool := idIn (fun r => r.user_id) db.users uid

/-- FOREIGN KEY ... REFERENCES MediaItems(media_id). -/
def mediaExists (db : DB) (mid : Nat) : Bool := idIn (fun r => r.media_id) db.mediaItems mid

/-- FOREIGN KEY ... REFERENCES Tags(tag_id). -/
def tagExists (db : DB) (tid : Nat) : Bool := idIn (fun r => r.tag_id) db.tags tid

/-- INSERT INTO UserLevels (level_name) VALUES (?): no constraint beyond the
auto-generated primary key (level_name is not declared UNIQUE). -/
def insertUserLevel (db : DB) (name : String) : Except DBError DB :=
  .ok { db with
        userLevels := db.userLevels ++ [⟨db.nextLevelId, name⟩]
        nextLevelId := db.nextLevelId + 1 }

/-- INSERT INTO Users (username, password, email, user_level_id): enforces
UNIQUE(username), UNIQUE(email) and, when user_level_id is non-NULL, the
foreign key into UserLevels.  A NULL user_level_id bypasses the FK check. -/
def insertUser (db : DB) (username password email : String)
    (lvl : Option Nat) : Except DBError DB :=
  if (!db.users.any (fun u => u.username == username)) &&
     (!db.users.any (fun u => u.email == email)) &&
     (match lvl with | none => true | some l => levelExists db l) then
    .ok { db with
          users := db.users ++ [⟨db.nextUserId, username, password, email, lvl⟩]
          nextUserId := db.nextUserId + 1 }
  else .error .ConstraintViolation

/-- INSERT INTO MediaItems (user_id, filename, filesize, media_type, title,
description): enforces only the foreign key into Users — the schema declares
no constraint on the sign of filesize. -/
def insertMediaItem (db : DB) (uid : Nat) (filename : String)
    (filesize : Int) (media_type title : String) (descr : Option String) :
    Except DBError DB :=
  if userExists db uid then
    .ok { db with
          mediaItems := db.mediaItems ++
            [⟨db.nextMediaId, uid, filename, filesize, media_type, title, descr⟩]
          nextMediaId := db.nextMediaId + 1 }
  else .error .ConstraintViolation

/-- INSERT INTO Comments (media_id, user_id, comment_text): enforces the two
foreign keys. -/
def insertComment (db : DB) (mid uid : Nat) (text : String) :
    Except DBError DB :=
  if mediaExists db mid && userExists db uid then
    .ok { db with
          comments := db.comments ++ [⟨db.nextCommentId, mid, uid, text⟩]
          nextCommentId := db.nextCommentId + 1 }
  else .error .ConstraintViolation

/-- INSERT INTO Likes (media_id, user_id): enforces the two foreign keys;
there is no uniqueness constraint on the (user, media) pair. -/
def insertLike (db : DB) (mid uid : Nat) : Except DBError DB :=
  if mediaExists db mid && userExists db uid then
    .ok { db with
          likes := db.likes ++ [⟨db.nextLikeId, mid, uid⟩]
          nextLikeId := db.nextLikeId + 1 }
  else .error .ConstraintViolation

/-- INSERT INTO Ratings (media_id, user_id, rating_value): enforces the two
foreign keys and CHECK (rating_value BETWEEN 1 AND 5). -/
def insertRating (db : DB) (mid uid : Nat) (v : Int) : Except DBError DB :=
  if mediaExists db mid && userExists db uid &&
     decide (1 ≤ v) && decide (v ≤ 5) then
    .ok { db with
          ratings := db.ratings ++ [⟨db.nextRatingId, mid, uid, v⟩]
          nextRatingId := db.nextRatingId + 1 }
  else .error .ConstraintViolation

/-- INSERT INTO Tags (tag_name): no constraint beyond the auto-generated
primary key (tag_name is not declared UNIQUE). -/
def insertTag (db : DB) (name : String) : Except DBError DB :=
  .ok { db with
        tags := db.tags ++ [⟨db.nextTagId, name⟩]
        nextTagId := db.nextTagId + 1 }

/-- INSERT INTO MediaItemTags (media_id, tag_id): enforces the two foreign
keys and the composite PRIMARY KEY (media_id, tag_id). -/
def insertMediaItemTag (db : DB) (mid tid : Nat) : Except DBError DB :=
  if mediaExists db mid && tagExists db tid &&
     (!db.mediaItemTags.any (fun mt => mt.media_id == mid && mt.tag_id == tid)) then
    .ok { db with mediaItemTags := db.mediaItemTags ++ [⟨mid, tid⟩] }
  else .error .ConstraintViolation

/-- Does any child table still reference user `uid`?  (MediaItems, Comments,
Likes and Ratings all carry a FOREIGN KEY into Users.) -/
def userHasDependents (db : DB) (uid : Nat) : Bool :=
  db.mediaItems.any (fun m => m.user_id == uid) ||
  db.comments.any (fun c => c.user_id == uid) ||
  db.likes.any (fun l => l.user_id == uid) ||
  db.ratings.any (fun r => r.user_id == uid)

/-- DELETE FROM Users WHERE user_id = ?: the referencing foreign keys declare
no ON DELETE action, so the engine applies the default RESTRICT behaviour
and rejects the delete while dependent rows exist. -/
def deleteUser (db : DB) (uid : Nat) : Except DBError DB :=
  if userHasDependents db uid then .error .ConstraintViolation
  else .ok { db with users := db.users.filter (fun u => !(u.user_id == uid)) }

/-- Does any child table still reference media item `mid`?  (Comments, Likes,
Ratings and MediaItemTags all carry a FOREIGN KEY into MediaItems.) -/
def mediaHasDependents (db : DB) (mid : Nat) : Bool :=
  db.comments.any (fun c => c.media_id == mid) ||
  db.likes.any (fun l => l.media_id == mid) ||
  db.ratings.any (fun r => r.media_id == mid) ||
  db.mediaItemTags.any (fun mt => mt.media_id == mid)

/-- DELETE FROM MediaItems WHERE media_id = ?: RESTRICT behaviour, as for
`deleteUser`. -/
def deleteMediaItem (db : DB) (mid : Nat) : Except DBError DB :=
  if mediaHasDependents db mid then .error .ConstraintViolation
  else .ok { db with mediaItems := db.mediaItems.filter (fun m => !(m.media_id == mid)) }

/-- The write operations the material defines against the schema store: the
eight INSERT shapes of the seed script plus the two DELETE endpoints of the
REST API reference (DELETE media item, DELETE user). -/
inductive Op where
  | insertUserLevel (name : String)
  | insertUser (username password email : String) (lvl : Option Nat)
  | insertMediaItem (uid : Nat) (filename : String) (filesize : Int)
      (media_type title : String) (descr : Option String)
  | insertComment (mid uid : Nat) (text : String)
  | insertLike (mid uid : Nat)
  | insertRating (mid uid : Nat) (v : Int)
  | insertTag (name : String)
  | insertMediaItemTag (mid tid : Nat)
  | deleteUser (uid : Nat)
  | deleteMediaItem (mid : Nat)
deriving Repr, DecidableEq

/-- Dispatch one operation against the store. -/
def step (db : DB) : Op → Except DBError DB
  | .insertUserLevel name => insertUserLevel db name
  | .insertUser un pw em lvl => insertUser db un pw em lvl
  | .insertMediaItem uid fn fs mt ti d => insertMediaItem db uid fn fs mt ti d
  | .insertComment mid uid t => insertComment db mid uid t
  | .insertLike mid uid => insertLike db mid uid
  | .insertRating mid uid v => insertRating db mid uid v
  | .insertTag name => insertTag db name
  | .insertMediaItemTag mid tid => insertMediaItemTag db mid tid
  | .deleteUser uid => deleteUser db uid
  | .deleteMediaItem mid => deleteMediaItem db mid

/-- Run one operation; a failed operation leaves the database unchanged
(each statement is atomic). -/
def applyOp (db : DB) (op : Op) : DB :=
  match step db op with
  | .ok db' => db'
  | .error _ => db

/-- A database state is reachable when some sequence of operations produces
it from the freshly created database. -/
def Reachable (db : DB) : Prop :=
  ∃ ops : List Op, db = ops.foldl applyOp emptyDB

/-- The seed script of media-db.sql, as the store that results from running
its INSERT statements in order (AUTO_INCREMENT ids assigned from 1). -/
def seedDB : DB :=
  { userLevels := [⟨1, "Admin"⟩, ⟨2, "User"⟩, ⟨3, "Guest"⟩]
    users :=
      [⟨1, "JohnDoe", "to-be-hashed-pw1", "johndoe@example.com", some 2⟩,
       ⟨2, "JaneSmith", "to-be-hashed-pw2", "janesmith@example.com", some 2⟩,
       ⟨3, "Anon5468", "to-be-hashed-pw3", "anon5468@example.com", some 2⟩,
       ⟨4, "AdminUser", "to-be-hashed-pw4", "adminuser@example.com", some 1⟩]
    mediaItems :=
      [⟨1, 1, "sunset.jpg", 1024, "image/jpeg", "Sunset", some "A beautiful sunset"⟩,
       ⟨2, 2, "sample.mp4", 20480, "video/mp4", "Sample Video", some "A sample video file"⟩,
       ⟨3, 2, "ffd8.jpg", 2048, "image/jpeg", "Favorite food", none⟩,
       ⟨4, 1, "2f9b.jpg", 1024, "image/jpeg", "Aksux and Jane", some "friends"⟩]
    comments :=
      [⟨1, 1, 2, "This is a wonderful photo!"⟩,
       ⟨2, 2, 1, "Really nice video, thanks for sharing!"⟩]
    likes :=
      [⟨1, 1, 2⟩, ⟨2, 2, 1⟩, ⟨3, 2, 2⟩, ⟨4, 3, 1⟩, ⟨5, 2, 3⟩, ⟨6, 3, 3⟩]
    ratings := [⟨1, 1, 2, 5⟩, ⟨2, 2, 1, 4⟩, ⟨3, 1, 3, 4⟩]
    tags := [⟨1, "Nature"⟩, ⟨2, "Video"⟩, ⟨3, "Documentary"⟩, ⟨4, "Landscape"⟩]
    mediaItemTags := [⟨1, 1⟩, ⟨1, 4⟩, ⟨2, 2⟩, ⟨3, 1⟩, ⟨2, 3⟩]
    nextLevelId := 4, nextUserId := 5, nextMediaId := 5, nextCommentId := 3
    nextLikeId := 7, nextRatingId := 4, nextTagId := 5 }

/-- The INSERT statements of the seed script, in script order. -/
def seedOps : List Op :=
  [.insertUserLevel "Admin", .insertUserLevel "User", .insertUserLevel "Guest",
   .insertUser "JohnDoe" "to-be-hashed-pw1" "johndoe@example.com" (some 2),
   .insertUser "JaneSmith" "to-be-hashed-pw2" "janesmith@example.com" (some 2),
   .insertUser "Anon5468" "to-be-hashed-pw3" "anon5468@example.com" (some 2),
   .insertUser "AdminUser" "to-be-hashed-pw4" "adminuser@example.com" (some 1),
   .insertMediaItem 1 "sunset.jpg" 1024 "image/jpeg" "Sunset" (some "A beautiful sunset"),
   .insertMediaItem 2 "sample.mp4" 20480 "video/mp4" "Sample Video" (some "A sample video file"),
   .insertMediaItem 2 "ffd8.jpg" 2048 "image/jpeg" "Favorite food" none,
   .insertMediaItem 1 "2f9b.jpg" 1024 "image/jpeg" "Aksux and Jane" (some "friends"),
   .insertComment 1 2 "This is a wonderful photo!",
   .insertComment 2 1 "Really nice video, thanks for sharing!",
   .insertLike 1 2, .insertLike 2 1, .insertLike 2 2,
   .insertLike 3 1, .insertLike 2 3, .insertLike 3 3,
   .insertRating 1 2 5, .insertRating 2 1 4, .insertRating 1 3 4,
   .insertTag "Nature", .insertTag "Video", .insertTag "Documentary", .insertTag "Landscape",
   .insertMediaItemTag 1 1, .insertMediaItemTag 1 4, .insertMediaItemTag 2 2,
   .insertMediaItemTag 3 1, .insertMediaItemTag 2 3]



/-- First occurrences of the elements of a list, in order: the groups formed
by GROUP BY, keyed in insertion order of the underlying rows. -/
def distinctKeys {α : Type} [BEq α] (xs : List α) : List α :=
  xs.foldl (fun acc x => if acc.contains x then acc else acc ++ [x]) []

/-- SELECT media_id, COUNT(media_id) AS likes FROM Likes GROUP BY media_id:
one (media_id, count) pair per group, groups in insertion order. -/
def likeCounts (likes : List LikeRow) : List (Nat × Nat) :=
  (distinctKeys (likes.map (fun l => l.media_id))).map
    (fun m => (m, (likes.filter (fun l => l.media_id == m)).length))

/-- ... ORDER BY likes DESC LIMIT 1: the group with the most likes; on a tie
the earlier group (insertion order) is kept. -/
def mostLikes (likes : List LikeRow) : Option (Nat × Nat) :=
  (likeCounts likes).foldl
    (fun best p =>
      match best with
      | none => some p
      | some q => if q.2 < p.2 then some p else some q)
    none

/-- SELECT title, description, filename FROM MediaItems WHERE media_id IN
(SELECT media_id FROM MediaItemTags WHERE tag_id = (SELECT tag_id FROM Tags
WHERE tag_name = ...)), evaluated innermost-first, returning the matching
rows before projection.  The innermost scalar subquery yields NULL when no
tag matches (then `IN` matches nothing) and is an error when several tags
match. -/
def taggedQueryRows (db : DB) (name : String) :
    Except DBError (List MediaItemRow) :=
  match db.tags.filter (fun t => t.tag_name == name) with
  | [] => .ok []
  | [t] =>
      .ok (db.mediaItems.filter (fun m =>
        ((db.mediaItemTags.filter (fun mt => mt.tag_id == t.tag_id)).map
            (fun mt => mt.media_id)).contains m.media_id))
  | _ :: _ :: _ => .error .SubqueryError

/-- The catalogued Nature query with its projection onto
(title, description, filename). -/
def natureQuery (db : DB) :
    Except DBError (List (String × Option String × String)) :=
  (taggedQueryRows db "Nature").map
    (List.map (fun m => (m.title, m.description, m.filename)))

/-- The projectable columns of MediaItems. -/
inductive MCol where
  | media_id | user_id | filename | filesize | media_type | title | description
deriving Repr, DecidableEq, BEq

/-- A column value: INT, VARCHAR or NULL. -/
inductive Val where
  | vint (n : Int)
  | vstr (s : String)
  | vnull
deriving Repr, DecidableEq, BEq

/-- Read one column of a MediaItems row. -/
def getCol (m : MediaItemRow) : MCol → Val
  | .media_id => .vint m.media_id
  | .user_id => .vint m.user_id
  | .filename => .vstr m.filename
  | .filesize => .vint m.filesize
  | .media_type => .vstr m.media_type
  | .title => .vstr m.title
  | .description => match m.description with | some s => .vstr s | none => .vnull

/-- The aggregate functions of the catalogue usable on an INT column. -/
inductive AggFun where
  | cnt | amin | amax | asum
deriving Repr, DecidableEq

/-- One item of a SELECT list over a grouped query: a bare column or an
aggregate applied to a column. -/
inductive SelectItem where
  | col (c : MCol)
  | agg (f : AggFun) (c : MCol)
deriving Repr, DecidableEq

/-- The INT values of a column within a group; SQL aggregates skip NULLs. -/
def colInts (c : MCol) (rows : List MediaItemRow) : List Int :=
  rows.filterMap (fun m =>
    match getCol m c with
    | .vint n => some n
    | _ => none)

/-- Evaluate an aggregate over one group (COUNT counts non-NULL values;
MIN/MAX/SUM of an empty set are NULL/NULL/0 after NULL removal). -/
def evalAgg (f : AggFun) (c : MCol) (rows : List MediaItemRow) : Val :=
  match f with
  | .cnt => .vint ((rows.filter (fun m => !(getCol m c == Val.vnull))).length)
  | .amin =>
      match colInts c rows with
      | [] => .vnull
      | x :: xs => .vint (xs.foldl min x)
  | .amax =>
      match colInts c rows with
      | [] => .vnull
      | x :: xs => .vint (xs.foldl max x)
  | .asum => .vint ((colInts c rows).foldl (· + ·) 0)

/-- Evaluate one SELECT item over one (non-empty) group: a bare column is
read off the first row of the group (legal projections only name grouped
columns, constant within the group), an aggregate folds the group. -/
def evalItem (grp : List MediaItemRow) : SelectItem → Val
  | .col c => match grp with | [] => .vnull | m :: _ => getCol m c
  | .agg f c => evalAgg f c grp

/-- If grouping is used, one may only SELECT columns that are part of GROUP
BY or inside an aggregate function. -/
def projectionOk (groupBy : List MCol) (sel : List SelectItem) : Bool :=
  sel.all (fun it =>
    match it with
    | .col c => groupBy.contains c
    | .agg _ _ => true)

/-- SELECT ... FROM MediaItems GROUP BY ...: rejects an ambiguous projection
(a selected column neither grouped nor aggregated), otherwise returns one
output row per group, groups in insertion order. -/
def runGroupQuery (db : DB) (groupBy : List MCol) (sel : List SelectItem) :
    Except DBError (List (List Val)) :=
  if projectionOk groupBy sel then
    .ok ((distinctKeys (db.mediaItems.map (fun m => groupBy.map (getCol m)))).map
      (fun k =>
        (sel.map (evalItem
          (db.mediaItems.filter (fun m => groupBy.map (getCol m) == k))))))
  else .error .AmbiguousProjection

/-- The caller-supplied user object of the registration endpoint: the fields
read by addUser plus a caller-chosen level field the function ignores. -/
structure UserInput where
  username : String
  email : String
  password : String
  user_level_id : Option Nat
deriving Repr, DecidableEq

/-- The addUser model function of user-model.js: INSERT INTO Users
(username, email, password, user_level_id) VALUES (?, ?, ?, ?) with params
[user.username, user.email, user.password, 2] — the level is hard-coded to 2
(normal user) — returning the insertId on success and an error object when
the query throws; the failed insert leaves the database unchanged. -/
def addUser (db : DB) (user : UserInput) : DB × Except String Nat :=
  match insertUser db user.username user.password user.email (some 2) with
  | .ok db' => (db', .ok db.nextUserId)
  | .error _ => (db, .error "constraint violation")

/-- The declared integrity of the schema: every foreign key resolves (a NULL
user_level_id stands for no reference) and every rating value satisfies its
CHECK constraint. -/
def WF (db : DB) : Prop :=
  (∀ m ∈ db.mediaItems, userExists db m.user_id = true) ∧
  (∀ u ∈ db.users, ∀ l : Nat, u.user_level_id = some l → levelExists db l = true) ∧
  (∀ c ∈ db.comments, mediaExists db c.media_id = true ∧ userExists db c.user_id = true) ∧
  (∀ lk ∈ db.likes, mediaExists db lk.media_id = true ∧ userExists db lk.user_id = true) ∧
  (∀ r ∈ db.ratings, mediaExists db r.media_id = true ∧ userExists db r.user_id = true ∧
      1 ≤ r.rating_value ∧ r.rating_value ≤ 5) ∧
  (∀ mt ∈ db.mediaItemTags, mediaExists db mt.media_id = true ∧ tagExists db mt.tag_id = true)

/-- The claim C7 counterexample state: the seed state after inserting a
media item with filesize 0, which the schema accepts. -/
def c7db : DB :=
  applyOp seedDB (.insertMediaItem 1 "zero.bin" 0 "application/octet-stream" "Zero" none)

/-- The claim C8 counterexample state: a single Users row inserted with a
NULL user_level_id into the fresh database. -/
def c8db : DB :=
  applyOp emptyDB (.insertUser "orphanlevel" "pw" "orphan@example.com" none)

set_option maxRecDepth 100000 in
/-- Running the seed script from the fresh database yields exactly `seedDB`;
in particular the seed state is reachable. -/
theorem seedDB_reachable : Reachable seedDB :=
  ⟨seedOps, by decide⟩

theorem idIn_iff {α : Type} (key : α → Nat) (l : List α) (x : Nat) :
    idIn key l x = true ↔ ∃ a ∈ l, key a = x := by
  simp [idIn, List.any_eq_true]

theorem idIn_append_left {α : Type} (key : α → Nat) (l l' : List α) (x : Nat)
    (h : idIn key l x = true) : idIn key (l ++ l') x = true := by
  simp only [idIn, List.any_append, idIn] at *
  rw [h]
  rfl

theorem idIn_filter {α : Type} (key : α → Nat) (l : List α) (x : Nat)
    (p : α → Bool) (h : idIn key l x = true)
    (hp : ∀ a ∈ l, key a = x → p a = true) :
    idIn key (l.filter p) x = true := by
  rw [idIn_iff] at h ⊢
  obtain ⟨a, ha, hk⟩ := h
  exact ⟨a, List.mem_filter.2 ⟨ha, hp a ha hk⟩, hk⟩

theorem WF_empty : WF emptyDB := by
  refine ⟨?_, ?_, ?_, ?_, ?_, ?_⟩ <;> intro a ha <;> simp [emptyDB] at ha

theorem WF_applyOp (db : DB) (op : Op) (h : WF db) : WF (applyOp db op) := by
  obtain ⟨h1, h2, h3, h4, h5, h6⟩ := h
  cases op with
  | insertUserLevel name =>
      have he : applyOp db (.insertUserLevel name) =
          { db with userLevels := db.userLevels ++ [⟨db.nextLevelId, name⟩]
                    nextLevelId := db.nextLevelId + 1 } := rfl
      rw [he]
      refine ⟨h1, ?_, h3, h4, h5, h6⟩
      intro u hu l hl
      exact idIn_append_left _ _ _ _ (h2 u hu l hl)
  | insertUser un pw em lvl =>
      by_cases hg : ((!db.users.any (fun u => u.username == un)) &&
          (!db.users.any (fun u => u.email == em)) &&
          (match lvl with | none => true | some l => levelExists db l)) = true
      · have he : applyOp db (.insertUser un pw em lvl) =
            { db with users := db.users ++ [⟨db.nextUserId, un, pw, em, lvl⟩]
                      nextUserId := db.nextUserId + 1 } := by
          simp only [applyOp, step, insertUser, hg, if_true]
        rw [he]
        have hlvl : ∀ l : Nat, lvl = some l → levelExists db l = true := by
          intro l hl
          subst hl
          simp only [Bool.and_eq_true] at hg
          exact hg.2
        refine ⟨?_, ?_, ?_, ?_, ?_, h6⟩
        · intro m hm
          exact idIn_append_left _ _ _ _ (h1 m hm)
        · intro u hu l hl
          rcases List.mem_append.1 hu with hu | hu
          · exact h2 u hu l hl
          · rcases List.mem_singleton.1 hu
            exact hlvl l hl
        · intro c hc
          exact ⟨(h3 c hc).1, idIn_append_left _ _ _ _ (h3 c hc).2⟩
        · intro lk hlk
          exact ⟨(h4 lk hlk).1, idIn_append_left _ _ _ _ (h4 lk hlk).2⟩
        · intro r hr
          exact ⟨(h5 r hr).1, idIn_append_left _ _ _ _ (h5 r hr).2.1,
            (h5 r hr).2.2⟩
      · have he : applyOp db (.insertUser un pw em lvl) = db := by
          simp [applyOp, step, insertUser, hg]
        rw [he]
        exact ⟨h1, h2, h3, h4, h5, h6⟩
  | insertMediaItem uid fn fs mt ti d =>
      by_cases hg : userExists db uid = true
      · have he : applyOp db (.insertMediaItem uid fn fs mt ti d) =
            { db with
              mediaItems := db.mediaItems ++
                [⟨db.nextMediaId, uid, fn, fs, mt, ti, d⟩]
              nextMediaId := db.nextMediaId + 1 } := by
          simp only [applyOp, step, insertMediaItem, hg, if_true]
        rw [he]
        refine ⟨?_, h2, ?_, ?_, ?_, ?_⟩
        · intro m hm
          rcases List.mem_append.1 hm with hm | hm
          · exact h1 m hm
          · rcases List.mem_singleton.1 hm
            exact hg
        · intro c hc
          exact ⟨idIn_append_left _ _ _ _ (h3 c hc).1, (h3 c hc).2⟩
        · intro lk hlk
          exact ⟨idIn_append_left _ _ _ _ (h4 lk hlk).1, (h4 lk hlk).2⟩
        · intro r hr
          exact ⟨idIn_append_left _ _ _ _ (h5 r hr).1, (h5 r hr).2⟩
        · intro mt2 hmt
          exact ⟨idIn_append_left _ _ _ _ (h6 mt2 hmt).1, (h6 mt2 hmt).2⟩
      · have he : applyOp db (.insertMediaItem uid fn fs mt ti d) = db := by
          simp [applyOp, step, insertMediaItem, hg]
        rw [he]
        exact ⟨h1, h2, h3, h4, h5, h6⟩
  | insertComment mid uid t =>
      by_cases hg : (mediaExists db mid && userExists db uid) = true
      · have he : applyOp db (.insertComment mid uid t) =
            { db with comments := db.comments ++ [⟨db.nextCommentId, mid, uid, t⟩]
                      nextCommentId := db.nextCommentId + 1 } := by
          simp only [applyOp, step, insertComment, hg, if_true]
        rw [he]
        rw [Bool.and_eq_true] at hg
        refine ⟨h1, h2, ?_, h4, h5, h6⟩
        intro c hc
        rcases List.mem_append.1 hc with hc | hc
        · exact h3 c hc
        · rcases List.mem_singleton.1 hc
          exact hg
      · have he : applyOp db (.insertComment mid uid t) = db := by
          simp [applyOp, step, insertComment, hg]
        rw [he]
        exact ⟨h1, h2, h3, h4, h5, h6⟩
  | insertLike mid uid =>
      by_cases hg : (mediaExists db mid && userExists db uid) = true
      · have he : applyOp db (.insertLike mid uid) =
            { db with likes := db.likes ++ [⟨db.nextLikeId, mid, uid⟩]
                      nextLikeId := db.nextLikeId + 1 } := by
          simp only [applyOp, step, insertLike, hg, if_true]
        rw [he]
        rw [Bool.and_eq_true] at hg
        refine ⟨h1, h2, h3, ?_, h5, h6⟩
        intro lk hlk
        rcases List.mem_append.1 hlk with hlk | hlk
        · exact h4 lk hlk
        · rcases List.mem_singleton.1 hlk
          exact hg
      · have he : applyOp db (.insertLike mid uid) = db := by
          simp [applyOp, step, insertLike, hg]
        rw [he]
        exact ⟨h1, h2, h3, h4, h5, h6⟩
  | insertRating mid uid v =>
      by_cases hg : (mediaExists db mid && userExists db uid &&
          decide (1 ≤ v) && decide (v ≤ 5)) = true
      · have he : applyOp db (.insertRating mid uid v) =
            { db with ratings := db.ratings ++ [⟨db.nextRatingId, mid, uid, v⟩]
                      nextRatingId := db.nextRatingId + 1 } := by
          simp only [applyOp, step, insertRating, hg, if_true]
        rw [he]
        simp only [Bool.and_eq_true, decide_eq_true_eq] at hg
        refine ⟨h1, h2, h3, h4, ?_, h6⟩
        intro r hr
        rcases List.mem_append.1 hr with hr | hr
        · exact h5 r hr
        · rcases List.mem_singleton.1 hr
          exact ⟨hg.1.1.1, hg.1.1.2, hg.1.2, hg.2⟩
      · have he : applyOp db (.insertRating mid uid v) = db := by
          simp [applyOp, step, insertRating, hg]
        rw [he]
        exact ⟨h1, h2, h3, h4, h5, h6⟩
  | insertTag name =>
      have he : applyOp db (.insertTag name) =
          { db with tags := db.tags ++ [⟨db.nextTagId, name⟩]
                    nextTagId := db.nextTagId + 1 } := rfl
      rw [he]
      refine ⟨h1, h2, h3, h4, h5, ?_⟩
      intro mt hmt
      exact ⟨(h6 mt hmt).1, idIn_append_left _ _ _ _ (h6 mt hmt).2⟩
  | insertMediaItemTag mid tid =>
      by_cases hg : (mediaExists db mid && tagExists db tid &&
          (!db.mediaItemTags.any (fun mt => mt.media_id == mid && mt.tag_id == tid))) = true
      · have he : applyOp db (.insertMediaItemTag mid tid) =
            { db with mediaItemTags := db.mediaItemTags ++ [⟨mid, tid⟩] } := by
          simp only [applyOp, step, insertMediaItemTag, hg, if_true]
        rw [he]
        simp only [Bool.and_eq_true] at hg
        refine ⟨h1, h2, h3, h4, h5, ?_⟩
        intro mt hmt
        rcases List.mem_append.1 hmt with hmt | hmt
        · exact h6 mt hmt
        · rcases List.mem_singleton.1 hmt
          exact ⟨hg.1.1, hg.1.2⟩
      · have he : applyOp db (.insertMediaItemTag mid tid) = db := by
          simp [applyOp, step, insertMediaItemTag, hg]
        rw [he]
        exact ⟨h1, h2, h3, h4, h5, h6⟩
  | deleteUser uid =>
      by_cases hg : userHasDependents db uid = true
      · have he : applyOp db (.deleteUser uid) = db := by
          simp only [applyOp, step, deleteUser, hg, if_true]
        rw [he]
        exact ⟨h1, h2, h3, h4, h5, h6⟩
      · have he : applyOp db (.deleteUser uid) =
            { db with users := db.users.filter (fun u => !(u.user_id == uid)) } := by
          simp [applyOp, step, deleteUser, hg]
        rw [he]
        rw [Bool.not_eq_true] at hg
        simp only [userHasDependents, Bool.or_eq_false_iff, List.any_eq_false,
          beq_iff_eq] at hg
        obtain ⟨⟨⟨hgm, hgc⟩, hgl⟩, hgr⟩ := hg
        have hkeep : ∀ x : Nat, userExists db x = true → x ≠ uid →
            idIn (fun r => r.user_id) (db.users.filter (fun u => !(u.user_id == uid))) x = true := by
          intro x hx hne
          refine idIn_filter _ _ _ _ hx ?_
          intro a _ hk
          simp [hk, hne]
        refine ⟨?_, ?_, ?_, ?_, ?_, h6⟩
        · intro m hm
          exact hkeep m.user_id (h1 m hm) (hgm m hm)
        · intro u hu l hl
          exact h2 u (List.mem_of_mem_filter hu) l hl
        · intro c hc
          exact ⟨(h3 c hc).1, hkeep c.user_id (h3 c hc).2 (hgc c hc)⟩
        · intro lk hlk
          exact ⟨(h4 lk hlk).1, hkeep lk.user_id (h4 lk hlk).2 (hgl lk hlk)⟩
        · intro r hr
          exact ⟨(h5 r hr).1, hkeep r.user_id (h5 r hr).2.1 (hgr r hr),
            (h5 r hr).2.2⟩
  | deleteMediaItem mid =>
      by_cases hg : mediaHasDependents db mid = true
      · have he : applyOp db (.deleteMediaItem mid) = db := by
          simp only [applyOp, step, deleteMediaItem, hg, if_true]
        rw [he]
        exact ⟨h1, h2, h3, h4, h5, h6⟩
      · have he : applyOp db (.deleteMediaItem mid) =
            { db with mediaItems := db.mediaItems.filter (fun m => !(m.media_id == mid)) } := by
          simp [applyOp, step, deleteMediaItem, hg]
        rw [he]
        rw [Bool.not_eq_true] at hg
        simp only [mediaHasDependents, Bool.or_eq_false_iff, List.any_eq_false,
          beq_iff_eq] at hg
        obtain ⟨⟨⟨hgc, hgl⟩, hgr⟩, hgt⟩ := hg
        have hkeep : ∀ x : Nat, mediaExists db x = true → x ≠ mid →
            idIn (fun r => r.media_id) (db.mediaItems.filter (fun m => !(m.media_id == mid))) x = true := by
          intro x hx hne
          refine idIn_filter _ _ _ _ hx ?_
          intro a _ hk
          simp [hk, hne]
        refine ⟨?_, h2, ?_, ?_, ?_, ?_⟩
        · intro m hm
          exact h1 m (List.mem_of_mem_filter hm)
        · intro c hc
          exact ⟨hkeep c.media_id (h3 c hc).1 (hgc c hc), (h3 c hc).2⟩
        · intro lk hlk
          exact ⟨hkeep lk.media_id (h4 lk hlk).1 (hgl lk hlk), (h4 lk hlk).2⟩
        · intro r hr
          exact ⟨hkeep r.media_id (h5 r hr).1 (hgr r hr), (h5 r hr).2⟩
        · intro mt hmt
          exact ⟨hkeep mt.media_id (h6 mt hmt).1 (hgt mt hmt), (h6 mt hmt).2⟩

theorem WF_foldl (ops : List Op) (db0 : DB) (h : WF db0) :
    WF (ops.foldl applyOp db0) := by
  induction ops generalizing db0 with
  | nil => exact h
  | cons op ops ih => exact ih (applyOp db0 op) (WF_applyOp db0 op h)

theorem WF_reachable (db : DB) (h : Reachable db) : WF db := by
  obtain ⟨ops, rfl⟩ := h
  exact WF_foldl ops emptyDB WF_empty

theorem userExists_iff (db : DB) (x : Nat) :
    userExists db x = true ↔ ∃ u ∈ db.users, u.user_id = x :=
  idIn_iff _ _ _

theorem mediaExists_iff (db : DB) (x : Nat) :
    mediaExists db x = true ↔ ∃ m ∈ db.mediaItems, m.media_id = x :=
  idIn_iff _ _ _

theorem levelExists_iff (db : DB) (x : Nat) :
    levelExists db x = true ↔ ∃ lv ∈ db.userLevels, lv.level_id = x :=
  idIn_iff _ _ _

theorem tagExists_iff (db : DB) (x : Nat) :
    tagExists db x = true ↔ ∃ t ∈ db.tags, t.tag_id = x :=
  idIn_iff _ _ _

theorem taggedQueryRows_eq (db : DB) (t : TagRow)
    (ht : db.tags.filter (fun tg => tg.tag_name == "Nature") = [t]) :
    taggedQueryRows db "Nature" = .ok (db.mediaItems.filter (fun m =>
      ((db.mediaItemTags.filter (fun mt => mt.tag_id == t.tag_id)).map
        (fun mt => mt.media_id)).contains m.media_id)) := by
  unfold taggedQueryRows
  rw [ht]

theorem tagged_contains_iff (db : DB) (t : TagRow) (m : MediaItemRow) :
    (((db.mediaItemTags.filter (fun mt => mt.tag_id == t.tag_id)).map
        (fun mt => mt.media_id)).contains m.media_id = true) ↔
    (∃ mt ∈ db.mediaItemTags, mt.media_id = m.media_id ∧ mt.tag_id = t.tag_id) := by
  simp [List.mem_filter, List.mem_map]
  constructor
  · rintro ⟨mt, ⟨hmem, htid⟩, hmid⟩
    exact ⟨mt, hmem, hmid, htid⟩
  · rintro ⟨mt, hmem, hmid, htid⟩
    exact ⟨mt, ⟨hmem, htid⟩, hmid⟩

theorem insertMediaItemTag_inv (db : DB) (mid tid : Nat) (db' : DB)
    (h : insertMediaItemTag db mid tid = .ok db') :
    db' = { db with mediaItemTags := db.mediaItemTags ++ [⟨mid, tid⟩] } := by
  by_cases hg : (mediaExists db mid && tagExists db tid &&
      (!db.mediaItemTags.any (fun mt => mt.media_id == mid && mt.tag_id == tid))) = true
  · simp [insertMediaItemTag, hg] at h
    exact h.symm
  · simp [insertMediaItemTag, hg] at h

/-- Claim C1: for every reachable database state every MediaItems row has an
owner among the Users rows, and an insert into MediaItems whose user_id
matches no Users row fails with ConstraintViolation and leaves the database
unchanged. -/
theorem c1_media_owner_integrity (db : DB) (h : Reachable db) :
    (∀ m ∈ db.mediaItems, ∃ u ∈ db.users, u.user_id = m.user_id) ∧
    (∀ (uid : Nat) (fn : String) (fs : Int) (mt ti : String) (d : Option String),
      (¬ ∃ u ∈ db.users, u.user_id = uid) →
      insertMediaItem db uid fn fs mt ti d = .error .ConstraintViolation ∧
      applyOp db (.insertMediaItem uid fn fs mt ti d) = db) := by
  have hwf := WF_reachable db h
  refine ⟨fun m hm => (userExists_iff db m.user_id).1 (hwf.1 m hm), ?_⟩
  intro uid fn fs mt ti d hno
  have hex : userExists db uid = false := by
    rw [Bool.eq_false_iff]
    intro hcontr
    exact hno ((userExists_iff db uid).1 hcontr)
  exact ⟨by simp [insertMediaItem, hex],
    by simp [applyOp, step, insertMediaItem, hex]⟩

/-- Witness for C1 at the seed state: user_id 99 matches no Users row, so the
insert is rejected. -/
theorem c1_media_owner_integrity_witness :
    insertMediaItem seedDB 99 "ghost.jpg" 123 "image/jpeg" "Ghost" none =
      Except.error DBError.ConstraintViolation :=
  ((c1_media_owner_integrity seedDB seedDB_reachable).2 99 "ghost.jpg" 123
    "image/jpeg" "Ghost" none (by decide)).1

/-- Claim C2: in every reachable database state every Ratings row has
rating_value in [1,5], and inserting a rating_value outside [1,5] (for
example 0 or 6) fails with ConstraintViolation and leaves the database
unchanged. -/
theorem c2_rating_range (db : DB) (h : Reachable db) :
    (∀ r ∈ db.ratings, 1 ≤ r.rating_value ∧ r.rating_value ≤ 5) ∧
    (∀ (mid uid : Nat) (v : Int), (v < 1 ∨ 5 < v) →
      insertRating db mid uid v = .error .ConstraintViolation ∧
      applyOp db (.insertRating mid uid v) = db) := by
  have hwf := WF_reachable db h
  refine ⟨fun r hr => (hwf.2.2.2.2.1 r hr).2.2, ?_⟩
  intro mid uid v hv
  have hcond : (mediaExists db mid && userExists db uid &&
      decide (1 ≤ v) && decide (v ≤ 5)) = false := by
    rcases hv with hv | hv
    · have hd : decide (1 ≤ v) = false := decide_eq_false (not_le.2 hv)
      simp [hd]
    · have hd : decide (v ≤ 5) = false := decide_eq_false (not_le.2 hv)
      simp [hd]
  exact ⟨by simp [insertRating, hcond],
    by simp [applyOp, step, insertRating, hcond]⟩

/-- Witness for C2 at the empty reachable state: rating values 0 and 6 are
both rejected. -/
theorem c2_rating_range_witness :
    insertRating emptyDB 1 1 0 = Except.error DBError.ConstraintViolation ∧
    insertRating emptyDB 1 1 6 = Except.error DBError.ConstraintViolation :=
  ⟨((c2_rating_range emptyDB ⟨[], rfl⟩).2 1 1 0 (Or.inl (by decide))).1,
   ((c2_rating_range emptyDB ⟨[], rfl⟩).2 1 1 6 (Or.inr (by decide))).1⟩

/-- Claim C3: over exactly the seed Likes rows, the most-likes query returns
media_id 2 with a count of 3, and no other media_id reaches a count of 3
(no tie exists). -/
theorem c3_most_likes_seed :
    mostLikes seedDB.likes = some (2, 3) ∧
    (likeCounts seedDB.likes).filter (fun p => decide (3 ≤ p.2)) = [(2, 3)] := by
  decide

/-- Claim C5: inserting a Users row that repeats an existing username or an
existing email fails with ConstraintViolation and leaves the database
unchanged. -/
theorem c5_user_uniqueness (db : DB) (un pw em : String) (lvl : Option Nat)
    (h : (∃ u ∈ db.users, u.username = un) ∨ (∃ u ∈ db.users, u.email = em)) :
    insertUser db un pw em lvl = .error .ConstraintViolation ∧
    applyOp db (.insertUser un pw em lvl) = db := by
  have hcond : ((!db.users.any (fun u => u.username == un)) &&
      (!db.users.any (fun u => u.email == em)) &&
      (match lvl with | none => true | some l => levelExists db l)) = false := by
    rcases h with ⟨u, hu, he⟩ | ⟨u, hu, he⟩
    · have hx : db.users.any (fun u => u.username == un) = true := by
        rw [List.any_eq_true]
        exact ⟨u, hu, by simp [he]⟩
      simp [hx]
    · have hx : db.users.any (fun u => u.email == em) = true := by
        rw [List.any_eq_true]
        exact ⟨u, hu, by simp [he]⟩
      simp [hx]
  exact ⟨by simp [insertUser, hcond],
    by simp [applyOp, step, insertUser, hcond]⟩

/-- Witness for C5 at the seed state: username JohnDoe and email
janesmith@example.com are already taken. -/
theorem c5_user_uniqueness_witness :
    insertUser seedDB "JohnDoe" "pw" "new@example.com" (some 2) =
      Except.error DBError.ConstraintViolation ∧
    insertUser seedDB "NewName" "pw" "janesmith@example.com" (some 2) =
      Except.error DBError.ConstraintViolation :=
  ⟨(c5_user_uniqueness seedDB "JohnDoe" "pw" "new@example.com" (some 2)
      (Or.inl (by decide))).1,
   (c5_user_uniqueness seedDB "NewName" "pw" "janesmith@example.com" (some 2)
      (Or.inr (by decide))).1⟩

/-- Claim C6: grouping MediaItems by media_type while selecting the
ungrouped, non-aggregated column filesize is rejected as
AmbiguousProjection, whatever the database contents. -/
theorem c6_ambiguous_projection (db : DB) :
    runGroupQuery db [MCol.media_type]
      [SelectItem.col MCol.media_type, SelectItem.col MCol.filesize] =
      .error .AmbiguousProjection :=
  rfl

/-- Claim C4: when exactly one Tags row is named Nature, the nested
sub-query returns exactly the media rows linked to that tag through
MediaItemTags, and after inserting a MediaItemTags row linking an existing
media item to that tag, the item appears in the re-run query. -/
theorem c4_nature_subquery (db : DB) (t : TagRow)
    (ht : db.tags.filter (fun tg => tg.tag_name == "Nature") = [t]) :
    (taggedQueryRows db "Nature" = .ok (db.mediaItems.filter (fun m =>
      ((db.mediaItemTags.filter (fun mt => mt.tag_id == t.tag_id)).map
        (fun mt => mt.media_id)).contains m.media_id))) ∧
    (∀ m : MediaItemRow,
      (∃ rows, taggedQueryRows db "Nature" = .ok rows ∧ m ∈ rows) ↔
      (m ∈ db.mediaItems ∧
        ∃ mt ∈ db.mediaItemTags, mt.media_id = m.media_id ∧ mt.tag_id = t.tag_id)) ∧
    (∀ (mid : Nat) (db' : DB), insertMediaItemTag db mid t.tag_id = .ok db' →
      ∀ m ∈ db.mediaItems, m.media_id = mid →
      ∃ rows, taggedQueryRows db' "Nature" = .ok rows ∧ m ∈ rows) := by
  have hq := taggedQueryRows_eq db t ht
  refine ⟨hq, ?_, ?_⟩
  · intro m
    constructor
    · rintro ⟨rows, hr, hm⟩
      rw [hq] at hr
      rcases hr
      have := List.mem_filter.1 hm
      exact ⟨this.1, (tagged_contains_iff db t m).1 this.2⟩
    · rintro ⟨hmem, hlink⟩
      refine ⟨_, hq, List.mem_filter.2 ⟨hmem, (tagged_contains_iff db t m).2 hlink⟩⟩
  · intro mid db' hins m hmem hmid
    have hdb' := insertMediaItemTag_inv db mid t.tag_id db' hins
    subst hdb'
    have ht' : (({ db with
        mediaItemTags := db.mediaItemTags ++ [⟨mid, t.tag_id⟩] } : DB)).tags.filter
        (fun tg => tg.tag_name == "Nature") = [t] := ht
    have hq' := taggedQueryRows_eq _ t ht'
    refine ⟨_, hq', List.mem_filter.2 ⟨hmem, ?_⟩⟩
    refine (tagged_contains_iff _ t m).2 ?_
    exact ⟨⟨mid, t.tag_id⟩, List.mem_append.2 (Or.inr (List.mem_singleton.2 rfl)),
      hmid.symm, rfl⟩

/-- Witness for C4 at the seed state: the Nature tag is tag_id 1 and the
query returns exactly the seed media rows 1 and 3. -/
theorem c4_nature_subquery_witness :
    taggedQueryRows seedDB "Nature" = Except.ok
      [⟨1, 1, "sunset.jpg", 1024, "image/jpeg", "Sunset", some "A beautiful sunset"⟩,
       ⟨3, 2, "ffd8.jpg", 2048, "image/jpeg", "Favorite food", none⟩] :=
  ((c4_nature_subquery seedDB ⟨1, "Nature"⟩ (by decide)).1).trans (by rfl)

set_option maxRecDepth 400000 in
/-- Counterexample to claim C7 as stated: inserting a MediaItems row with
filesize 0 succeeds (no ConstraintViolation), and the resulting reachable
state holds a MediaItems row whose filesize is not positive. -/
theorem c7_counterexample :
    insertMediaItem seedDB 1 "zero.bin" 0 "application/octet-stream" "Zero" none =
      Except.ok c7db ∧
    Reachable c7db ∧
    c7db.mediaItems.any (fun m => decide (m.filesize ≤ 0)) = true := by
  refine ⟨by rfl,
    ⟨seedOps ++ [.insertMediaItem 1 "zero.bin" 0 "application/octet-stream" "Zero" none], ?_⟩,
    by decide⟩
  decide

/-- Claim C7 amended: every seed MediaItems row has a positive filesize, but
the schema does not bound filesize — an insert whose owner exists succeeds
whatever the filesize, 0 and negative included. -/
theorem c7_filesize_amended (db : DB) (uid : Nat) (fn : String) (fs : Int)
    (mt ti : String) (d : Option String) (h : userExists db uid = true) :
    (∀ m ∈ seedDB.mediaItems, 0 < m.filesize) ∧
    insertMediaItem db uid fn fs mt ti d = .ok
      { db with
        mediaItems := db.mediaItems ++ [⟨db.nextMediaId, uid, fn, fs, mt, ti, d⟩]
        nextMediaId := db.nextMediaId + 1 } :=
  ⟨by decide, by simp [insertMediaItem, h]⟩

/-- Witness for the amended C7 at the seed state: a filesize of -5 is
accepted because user 1 exists. -/
theorem c7_filesize_amended_witness :
    insertMediaItem seedDB 1 "neg.bin" (-5) "application/octet-stream" "Neg" none =
      Except.ok
        { seedDB with
          mediaItems := seedDB.mediaItems ++
            [⟨seedDB.nextMediaId, 1, "neg.bin", -5, "application/octet-stream", "Neg", none⟩]
          nextMediaId := seedDB.nextMediaId + 1 } :=
  (c7_filesize_amended seedDB 1 "neg.bin" (-5) "application/octet-stream" "Neg" none
    (by decide)).2

/-- Counterexample to claim C8 as stated: a reachable state holds a Users
row whose user_level_id resolves to no UserLevels row (the column is
nullable and the row carries NULL). -/
theorem c8_counterexample :
    Reachable c8db ∧
    c8db.users.any (fun u =>
      !(match u.user_level_id with
        | some l => levelExists c8db l
        | none => false)) = true :=
  ⟨⟨[.insertUser "orphanlevel" "pw" "orphan@example.com" none], by decide⟩, by decide⟩

/-- Claim C8 amended: in every reachable state every non-NULL user_level_id
resolves to an existing UserLevels row, and an insert whose non-NULL level
reference does not resolve fails with ConstraintViolation; a NULL
user_level_id, however, is admitted by the nullable column. -/
theorem c8_level_reference_amended (db : DB) (h : Reachable db) :
    (∀ u ∈ db.users, ∀ l : Nat, u.user_level_id = some l →
      ∃ lv ∈ db.userLevels, lv.level_id = l) ∧
    (∀ (un pw em : String) (l : Nat), levelExists db l = false →
      insertUser db un pw em (some l) = .error .ConstraintViolation) := by
  have hwf := WF_reachable db h
  refine ⟨fun u hu l hl => (levelExists_iff db l).1 (hwf.2.1 u hu l hl), ?_⟩
  intro un pw em l hl
  simp [insertUser, hl]

/-- Witness for the amended C8 at the empty reachable state: level 7 does
not exist, so the insert is rejected. -/
theorem c8_level_reference_amended_witness :
    insertUser emptyDB "x" "pw" "x@example.com" (some 7) =
      Except.error DBError.ConstraintViolation :=
  (c8_level_reference_amended emptyDB ⟨[], rfl⟩).2 "x" "pw" "x@example.com" 7 (by decide)

/-- Claim C9: in every reachable state no child row dangles (Comments,
Likes, Ratings and MediaItemTags all resolve both their foreign keys), and a
delete of a Users or MediaItems row that still has dependent rows is
rejected with ConstraintViolation (default RESTRICT behaviour). -/
theorem c9_restrict_no_orphans (db : DB) (h : Reachable db) :
    (∀ c ∈ db.comments, (∃ mi ∈ db.mediaItems, mi.media_id = c.media_id) ∧
      (∃ u ∈ db.users, u.user_id = c.user_id)) ∧
    (∀ lk ∈ db.likes, (∃ mi ∈ db.mediaItems, mi.media_id = lk.media_id) ∧
      (∃ u ∈ db.users, u.user_id = lk.user_id)) ∧
    (∀ r ∈ db.ratings, (∃ mi ∈ db.mediaItems, mi.media_id = r.media_id) ∧
      (∃ u ∈ db.users, u.user_id = r.user_id)) ∧
    (∀ mt ∈ db.mediaItemTags, (∃ mi ∈ db.mediaItems, mi.media_id = mt.media_id) ∧
      (∃ tg ∈ db.tags, tg.tag_id = mt.tag_id)) ∧
    (∀ uid : Nat, userHasDependents db uid = true →
      step db (.deleteUser uid) = .error .ConstraintViolation) ∧
    (∀ mid : Nat, mediaHasDependents db mid = true →
      step db (.deleteMediaItem mid) = .error .ConstraintViolation) := by
  have hwf := WF_reachable db h
  obtain ⟨h1, h2, h3, h4, h5, h6⟩ := hwf
  refine ⟨fun c hc => ⟨(mediaExists_iff db _).1 (h3 c hc).1,
      (userExists_iff db _).1 (h3 c hc).2⟩,
    fun lk hlk => ⟨(mediaExists_iff db _).1 (h4 lk hlk).1,
      (userExists_iff db _).1 (h4 lk hlk).2⟩,
    fun r hr => ⟨(mediaExists_iff db _).1 (h5 r hr).1,
      (userExists_iff db _).1 (h5 r hr).2.1⟩,
    fun mt hmt => ⟨(mediaExists_iff db _).1 (h6 mt hmt).1,
      (tagExists_iff db _).1 (h6 mt hmt).2⟩,
    fun uid hdep => by simp [step, deleteUser, hdep],
    fun mid hdep => by simp [step, deleteMediaItem, hdep]⟩

/-- Witness for C9 at the seed state: user 1 owns media items, so deleting
that user is rejected. -/
theorem c9_restrict_no_orphans_witness :
    step seedDB (Op.deleteUser 1) = Except.error DBError.ConstraintViolation :=
  (c9_restrict_no_orphans seedDB seedDB_reachable).2.2.2.2.1 1 (by decide)

/-- Claim C10: whenever addUser reports success it returns the
auto-generated id of the inserted row, and that row stores user_level_id 2
whatever level the caller supplied. -/
theorem c10_addUser_level_fixed (db : DB) (input : UserInput) (nid : Nat)
    (h : (addUser db input).2 = Except.ok nid) :
    nid = db.nextUserId ∧
    (addUser db input).1.users = db.users ++
      [⟨db.nextUserId, input.username, input.password, input.email, some 2⟩] := by
  unfold addUser at h ⊢
  cases hef : insertUser db input.username input.password input.email (some 2) with
  | ok db2 =>
      rw [hef] at h
      have hdb2 : db2 = { db with
          users := db.users ++
            [⟨db.nextUserId, input.username, input.password, input.email, some 2⟩]
          nextUserId := db.nextUserId + 1 } := by
        by_cases hg : ((!db.users.any (fun u => u.username == input.username)) &&
            (!db.users.any (fun u => u.email == input.email)) &&
            (match some 2 with | none => true | some l => levelExists db l)) = true
        · simp [insertUser, hg] at hef
          exact hef.symm
        · simp [insertUser, hg] at hef
      have hnid : nid = db.nextUserId :=
        (Except.ok.inj (h : Except.ok db.nextUserId = Except.ok nid)).symm
      subst hdb2
      exact ⟨hnid, rfl⟩
  | error e =>
      rw [hef] at h
      have h' : (Except.error "constraint violation" : Except String Nat) =
          Except.ok nid := h
      exact Except.noConfusion h'

/-- Witness for C10 at the seed state: the caller asks for level 5, addUser
stores level 2 and returns the fresh id 5. -/
theorem c10_addUser_level_fixed_witness :
    (addUser seedDB ⟨"alice", "alice@example.com", "pw123456", some 5⟩).1.users =
      seedDB.users ++ [⟨5, "alice", "pw123456", "alice@example.com", some 2⟩] :=
  (c10_addUser_level_fixed seedDB ⟨"alice", "alice@example.com", "pw123456", some 5⟩ 5
    (by rfl)).2
